import Mathlib

/-!
Verification of the component state-transition subsystem of the
harmony-design repository, as implemented in
`harmony-design/mcp/tools/update_component_state.py`.

The Python code is shallowly embedded: JSON documents become the inductive
type `JVal`, the file system and clock become an explicit `Env` record, and
every Python function of the `ComponentStateUpdater` class becomes a Lean
function of the same name.  A Python call that raises an uncaught exception
is modelled by an `Option` result of `none`; a normal return is `some`.
-/

set_option maxHeartbeats 1000000

/-- A JSON value, as produced by `json.load`.  JSON numbers are modelled as
integers; no code path of the embedded subsystem computes with numbers, so
floating point values are not needed. -/
inductive JVal where
  | null
  | bool (b : Bool)
  | num (n : Int)
  | str (s : String)
  | arr (elems : List JVal)
  | obj (fields : List (String × JVal))

/-- Python truthiness (`bool(x)`) of a JSON value: `None`, `False`, `0`,
empty string, empty list and empty dict are falsy. -/
def truthy : JVal → Bool
  | .null => false
  | .bool b => b
  | .num n => n != 0
  | .str s => !s.isEmpty
  | .arr xs => !xs.isEmpty
  | .obj fs => !fs.isEmpty

/-- Is the value JSON null (Python `None`)? -/
def isNull : JVal → Bool
  | .null => true
  | _ => false

/-- First binding of a key in an association list of object fields
(JSON objects produced by `json.load` have unique keys). -/
def lookupField : List (String × JVal) → String → Option JVal
  | [], _ => none
  | (k, v) :: fs, key => if k = key then some v else lookupField fs key

/-- Python `key in dict` for an object field list. -/
def hasField (fs : List (String × JVal)) (key : String) : Bool :=
  (lookupField fs key).isSome

/-- Python `d[key] = v` on a dict: replaces the value in place when the key
is present (keeping insertion order), otherwise appends a new binding. -/
def objSet (fs : List (String × JVal)) (key : String) (v : JVal) :
    List (String × JVal) :=
  if hasField fs key then
    fs.map (fun p => if p.1 = key then (key, v) else p)
  else fs ++ [(key, v)]

/-- Python `x.get(key, default)`: raises `AttributeError` (`none`) unless
`x` is a dict. -/
def dictGetD : JVal → String → JVal → Option JVal
  | .obj fs, key, dflt => some ((lookupField fs key).getD dflt)
  | _, _, _ => none

/-- Does `pat` occur contiguously in the list, i.e. as a prefix of some
suffix? -/
def listHasInfix (pat : List Char) : List Char → Bool
  | [] => pat.isEmpty
  | c :: cs => pat.isPrefixOf (c :: cs) || listHasInfix pat cs

/-- Python substring test `pat in s` on strings: the character sequence of
`pat` occurs contiguously in that of `s` (the empty pattern is contained
in every string). -/
def strContains (s pat : String) : Bool :=
  listHasInfix pat.data s.data

/-- Python `s.split(sep)` for a single-character separator, over the
character list: accumulate the current piece, emitting it at each
separator and at the end of the string.  As in Python,
`"".split(".") = [""]` and a leading, trailing or doubled separator
produces an empty piece. -/
def splitOnCharAux (sep : Char) : List Char → List Char → List String
  | [], acc => [String.mk acc.reverse]
  | c :: cs, acc =>
    if c = sep then String.mk acc.reverse :: splitOnCharAux sep cs []
    else splitOnCharAux sep cs (c :: acc)

/-- Python `s.split(sep)` with a one-character separator string. -/
def pySplitChar (s : String) (sep : Char) : List String :=
  splitOnCharAux sep s.data []

mutual
/-- Python `==` on JSON values: structural equality, except that `True`
and `False` compare equal to the numbers `1` and `0`, and dict equality
ignores field order. -/
def pyEq : JVal → JVal → Bool
  | .null, .null => true
  | .bool a, .bool b => a == b
  | .bool a, .num n => (if a then (1 : Int) else 0) == n
  | .num n, .bool a => n == (if a then (1 : Int) else 0)
  | .num a, .num b => a == b
  | .str a, .str b => a == b
  | .arr xs, .arr ys => pyEqList xs ys
  | .obj xs, .obj ys => xs.length == ys.length && pyEqFields xs ys
  | _, _ => false

/-- Elementwise Python equality of two lists. -/
def pyEqList : List JVal → List JVal → Bool
  | [], [] => true
  | x :: xs, y :: ys => pyEq x y && pyEqList xs ys
  | _, _ => false

/-- Every binding of the first field list is matched by an equal binding
in the second (dict equality, given unique keys and equal lengths). -/
def pyEqFields : List (String × JVal) → List (String × JVal) → Bool
  | [], _ => true
  | (k, v) :: rest, ys =>
    (match lookupField ys k with
     | some w => pyEq v w
     | none => false) && pyEqFields rest ys
end

mutual
/-- Python `repr` of a JSON value (the form used when a value is embedded
inside the `str` of a container).  Strings are wrapped in single quotes;
escaping of quote and backslash characters inside strings is not modelled,
matching Python exactly for strings free of those characters. -/
def pyRepr : JVal → String
  | .null => "None"
  | .bool true => "True"
  | .bool false => "False"
  | .num n => toString n
  | .str s => "\x27" ++ s ++ "\x27"
  | .arr xs => "[" ++ pyReprElems xs ++ "]"
  | .obj fs => "\x7b" ++ pyReprFields fs ++ "\x7d"

/-- Comma-separated `repr`s of list elements. -/
def pyReprElems : List JVal → String
  | [] => ""
  | [x] => pyRepr x
  | x :: y :: xs => pyRepr x ++ ", " ++ pyReprElems (y :: xs)

/-- Comma-separated `repr`s of dict entries. -/
def pyReprFields : List (String × JVal) → String
  | [] => ""
  | [(k, v)] => "\x27" ++ k ++ "\x27: " ++ pyRepr v
  | (k, v) :: p :: fs =>
    "\x27" ++ k ++ "\x27: " ++ pyRepr v ++ ", " ++ pyReprFields (p :: fs)
end

/-- Python `str(x)` (also the conversion applied by f-string
interpolation): a string renders as itself, every other value as its
`repr`. -/
def pyStr : JVal → String
  | .str s => s
  | v => pyRepr v

/-- Python membership `x in container`.  `none` models a raised
`TypeError` (membership test on a non-container, or an unhashable
key probed against a dict). -/
def pythonInGen (x container : JVal) : Option Bool :=
  match container with
  | .obj fs =>
    match x with
    | .str k => some (hasField fs k)
    | .arr _ => none
    | .obj _ => none
    | _ => some false
  | .arr xs => some (xs.any (fun e => pyEq x e))
  | .str s =>
    match x with
    | .str k => some (strContains s k)
    | _ => none
  | _ => none

/-- Python `key in container` for a string key. -/
def pythonIn (key : String) (container : JVal) : Option Bool :=
  pythonInGen (.str key) container

/-- Python subscription `container[key]` for the shapes this subsystem can
reach: dict with string key (absence raises `KeyError`), list with an
integer or boolean index (Python negative indexing included).  Every other
combination raises (`none`). -/
def pyIndexVal : JVal → JVal → Option JVal
  | .obj fs, .str k => lookupField fs k
  | .arr xs, .num n =>
    let i : Int := if n < 0 then n + xs.length else n
    if h : 0 ≤ i ∧ i.toNat < xs.length then some (xs.get ⟨i.toNat, h.2⟩)
    else none
  | .arr xs, .bool b =>
    let i : Nat := if b then 1 else 0
    if h : i < xs.length then some (xs.get ⟨i, h⟩) else none
  | _, _ => none

/-- Python `len`: defined for strings, lists and dicts; raises
(`none`) otherwise. -/
def pyLen : JVal → Option Nat
  | .str s => some s.length
  | .arr xs => some xs.length
  | .obj fs => some fs.length
  | _ => none

/-- Python iteration `for x in v`: lists yield their elements, strings
their characters, dicts their keys; other values raise (`none`). -/
def pyIter : JVal → Option (List JVal)
  | .arr xs => some xs
  | .str s => some (s.data.map (fun c => JVal.str (String.singleton c)))
  | .obj fs => some (fs.map (fun p => JVal.str p.1))
  | _ => none

/-- The loop of the `property_set` branch of `_check_prerequisite`
(`update_component_state.py` lines 152-158): walk the dotted path,
returning `False` as soon as a segment is not `in` the current value,
then test the final value against `None`.  `none` models a raised
`TypeError` (membership or subscription on an unsupported value). -/
def propWalk : List String → JVal → Option Bool
  | [], v => some (!(isNull v))
  | key :: rest, v =>
    match pythonIn key v with
    | none => none
    | some false => some false
    | some true =>
      match pyIndexVal v (.str key) with
      | none => none
      | some v2 => propWalk rest v2

/-- The ambient state a `ComponentStateUpdater` invocation can observe:
the contents of the two configuration files under
`harmony-design/state-machine/` (`none` when the file does not exist),
the per-component state files under `harmony-design/components/`
(`store id` is the parsed content of `<id>.state.json`, `none` when the
file does not exist), the existence probe used by `file_exists`
prerequisites (paths relative to the repository root), and the clock
read by `_get_timestamp`. -/
structure Env where
  definitionFile : Option JVal
  rulesFile : Option JVal
  store : String → Option JVal
  fileExists : String → Bool
  timestamp : String

/-- `ComponentStateUpdater.load_state_machine` (lines 37-52): the content
of `definition.json`, or the hardcoded default when the file is absent. -/
def load_state_machine (env : Env) : JVal :=
  env.definitionFile.getD
    (.obj [("states", .arr [.str "draft", .str "design_complete",
                            .str "implemented", .str "validated"]),
           ("transitions", .obj [])])

/-- `ComponentStateUpdater.load_transition_rules` (lines 54-66): the
content of `transition-rules.json`, or the empty-transitions default when
the file is absent. -/
def load_transition_rules (env : Env) : JVal :=
  env.rulesFile.getD (.obj [("transitions", .obj [])])

/-- `ComponentStateUpdater.get_component_state` (lines 68-83): the parsed
content of `<component_id>.state.json`, or `None` when the file is
absent. -/
def get_component_state (env : Env) (component_id : String) : Option JVal :=
  env.store component_id

/-- `ComponentStateUpdater._check_prerequisite` (lines 126-165).
Dispatches on the `type` field of the prerequisite descriptor; any
unrecognised (or missing) type yields `False`.  `none` models a raised
exception (`.get` on a non-dict descriptor, a missing required field,
`.format`/`.split` on a non-string, or a type error inside the
`property_set` walk).  `str.format` is modelled as substitution of the
`component_id` placeholder, exact for path templates whose only
replacement field is `component_id` (the shape this repository uses). -/
def check_prerequisite (env : Env) (component_id : String)
    (prerequisite component_state : JVal) : Option Bool :=
  match prerequisite with
  | .obj pfs =>
    match lookupField pfs "type" with
    | some (.str "file_exists") =>
      match lookupField pfs "path" with
      | some (.str pat) =>
        some (env.fileExists (String.replace pat "\x7bcomponent_id\x7d" component_id))
      | some _ => none
      | none => none
    | some (.str "property_set") =>
      match lookupField pfs "property" with
      | some (.str prop) => propWalk (pySplitChar prop '.') component_state
      | some _ => none
      | none => none
    | some (.str "linked_resources") =>
      match dictGetD component_state "links" (.obj []) with
      | none => none
      | some links =>
        match lookupField pfs "link_type" with
        | none => none
        | some required_link_type =>
          match pythonInGen required_link_type links with
          | none => none
          | some false => some false
          | some true =>
            match pyIndexVal links required_link_type with
            | none => none
            | some v =>
              match pyLen v with
              | none => none
              | some n => some (decide (0 < n))
    | _ => some false
  | _ => none

/-- The prerequisite loop of `validate_transition` (lines 120-122):
check each prerequisite in order, appending
`"Prerequisite not met: <description>"` for each unmet one.  `none`
models a raised exception (a check that raises, or a failing descriptor
without a `description` field). -/
def collectPrereqErrors (env : Env) (component_id : String)
    (component_state : JVal) : List JVal → Option (List String)
  | [] => some []
  | p :: ps =>
    match check_prerequisite env component_id p component_state with
    | none => none
    | some true => collectPrereqErrors env component_id component_state ps
    | some false =>
      match p with
      | .obj pfs =>
        match lookupField pfs "description" with
        | none => none
        | some d =>
          (collectPrereqErrors env component_id component_state ps).map
            (fun es => ("Prerequisite not met: " ++ pyStr d) :: es)
      | _ => none

/-- `ComponentStateUpdater.validate_transition` (lines 85-124).
`from_state` and `to_state` arrive as the strings produced by f-string
interpolation (the only way the Python code consumes them).  The result
is `(is_valid, errors)`; `none` models a raised exception. -/
def validate_transition (env : Env) (component_id from_state to_state : String)
    (transition_rules : JVal) : Option (Bool × List String) :=
  let transition_key := from_state ++ "_to_" ++ to_state
  match dictGetD transition_rules "transitions" (.obj []) with
  | none => none
  | some transDefault =>
    match pythonIn transition_key transDefault with
    | none => none
    | some false =>
      some (false, ["No transition defined from \x27" ++ from_state ++
                    "\x27 to \x27" ++ to_state ++ "\x27"])
    | some true =>
      match pyIndexVal transition_rules (.str "transitions") with
      | none => none
      | some transMap =>
        match pyIndexVal transMap (.str transition_key) with
        | none => none
        | some rule =>
          match dictGetD rule "prerequisites" (.arr []) with
          | none => none
          | some prereqVal =>
            match get_component_state env component_id with
            | none =>
              some (false, ["Component \x27" ++ component_id ++ "\x27 not found"])
            | some component_state =>
              if truthy component_state then
                match pyIter prereqVal with
                | none => none
                | some prerequisites =>
                  match collectPrereqErrors env component_id component_state
                      prerequisites with
                  | none => none
                  | some errors => some (errors.isEmpty, errors)
              else
                some (false, ["Component \x27" ++ component_id ++ "\x27 not found"])

/-- The result dict returned by `update_state` / `_apply_state_update`.
Fields that a given return path leaves out of its dict are `none`. -/
structure UpdateResult where
  success : Bool
  error : Option String
  validation_errors : Option (List String)
  component_id : String
  from_state : Option JVal
  to_state : Option JVal
  message : Option String

/-- The not-found result of `update_state` (lines 186-191). -/
def notFoundResult (component_id : String) : UpdateResult :=
  { success := false
    error := some ("Component \x27" ++ component_id ++ "\x27 not found")
    validation_errors := none
    component_id := component_id
    from_state := none
    to_state := none
    message := none }

/-- `ComponentStateUpdater._apply_state_update` (lines 221-260): set the
`state` field, append a `{from, to, timestamp}` record to
`state_history`, and write the file.  The second component of the result
is the content written to `<component_id>.state.json`.  `none` models a
raised exception (`.get` on a non-dict payload, or `.append` on a
non-list `state_history` value). -/
def apply_state_update (env : Env) (component_id : String)
    (component_state : JVal) (new_state : String) :
    Option (UpdateResult × Option JVal) :=
  match component_state with
  | .obj fs =>
    let old_state := (lookupField fs "state").getD (.str "draft")
    let fs1 := objSet fs "state" (.str new_state)
    match (lookupField fs1 "state_history").getD (.arr []) with
    | .arr hist =>
      let entry : JVal := .obj [("from", old_state), ("to", .str new_state),
                                ("timestamp", .str env.timestamp)]
      let fs2 := objSet fs1 "state_history" (.arr (hist ++ [entry]))
      some ({ success := true
              error := none
              validation_errors := none
              component_id := component_id
              from_state := some old_state
              to_state := some (.str new_state)
              message := some ("Successfully updated " ++ component_id ++
                               " from " ++ pyStr old_state ++ " to " ++ new_state) },
            some (.obj fs2))
    | _ => none
  | _ => none

/-- `ComponentStateUpdater.update_state` (lines 167-219).  The second
component of the result is the content written to the component state
file (`none` when no write happens); `none` overall models a raised
exception.  The current state is passed to `validate_transition` through
`pyStr`, matching the f-string interpolation that is the only use the
validator makes of it. -/
def update_state (env : Env) (component_id new_state : String)
    (force : Bool) : Option (UpdateResult × Option JVal) :=
  match get_component_state env component_id with
  | none => some (notFoundResult component_id, none)
  | some component_state =>
    if truthy component_state then
      match dictGetD component_state "state" (.str "draft") with
      | none => none
      | some current_state =>
        if force then
          apply_state_update env component_id component_state new_state
        else
          let transition_rules := load_transition_rules env
          match validate_transition env component_id (pyStr current_state)
              new_state transition_rules with
          | none => none
          | some (is_valid, errors) =>
            if is_valid then
              apply_state_update env component_id component_state new_state
            else
              some ({ success := false
                      error := some "Transition validation failed"
                      validation_errors := some errors
                      component_id := component_id
                      from_state := some current_state
                      to_state := some (.str new_state)
                      message := none }, none)
    else
      some (notFoundResult component_id, none)

/-- Observation helper: the `state_history` list recorded in a component
payload (empty when the field is absent or not a list). -/
def historyOf : JVal → List JVal
  | .obj fs =>
    match lookupField fs "state_history" with
    | some (.arr hs) => hs
    | _ => []
  | _ => []

/-- Observation helper: the current state recorded in a component payload,
with the `"draft"` default the code applies when the field is absent. -/
def stateOf : JVal → JVal
  | .obj fs => (lookupField fs "state").getD (.str "draft")
  | _ => .str "draft"

/-- Observation helper: the success flag of an `update_state` outcome
(`none` when the call raised). -/
def resultSuccess (r : Option (UpdateResult × Option JVal)) : Option Bool :=
  r.map (fun p => p.1.success)

/-- Observation helper: the file content written by an `update_state`
outcome (`none` when the call raised or wrote nothing). -/
def resultWrite (r : Option (UpdateResult × Option JVal)) : Option JVal :=
  match r with
  | some (_, some v) => some v
  | _ => none

/-- The spec reading of the `property_set` rule, following the words of
the specification: walk the dotted path through the state payload, return
false if any segment is absent, true otherwise unless the terminal value
is null.  Used to compare the code against the spec sentence. -/
def specPropertySet : List String → JVal → Bool
  | [], v => !(isNull v)
  | key :: rest, .obj fs =>
    match lookupField fs key with
    | none => false
    | some v2 => specPropertySet rest v2
  | _ :: _, _ => false

/-- Every value the dotted path traverses before the final segment is a
JSON object (the walk never steps into a string, list, number, boolean or
null while segments remain to be consumed). -/
def pathObjsOnly : List String → JVal → Bool
  | [], _ => true
  | key :: rest, .obj fs =>
    match lookupField fs key with
    | none => true
    | some v2 => pathObjsOnly rest v2
  | _ :: _, _ => false

/-- Does a `type` field value select one of the three known prerequisite
kinds of `_check_prerequisite`? -/
def isKnownTypeTag : Option JVal → Bool
  | some (.str "file_exists") => true
  | some (.str "property_set") => true
  | some (.str "linked_resources") => true
  | _ => false

/-- The `description` field of a prerequisite descriptor. -/
def descrOf : JVal → Option JVal
  | .obj pfs => lookupField pfs "description"
  | _ => none

/-- The error list the spec promises for a prerequisite list: one entry
per unmet prerequisite, in order, rendered from its description. -/
def prereqErrorsSpec (env : Env) (component_id : String)
    (component_state : JVal) (ps : List JVal) : List String :=
  ps.filterMap (fun p =>
    match check_prerequisite env component_id p component_state, descrOf p with
    | some false, some d => some ("Prerequisite not met: " ++ pyStr d)
    | _, _ => none)

/-- The number of prerequisites in a list that evaluate to unmet. -/
def unmetCount (env : Env) (component_id : String) (component_state : JVal)
    (ps : List JVal) : Nat :=
  (ps.filter
    (fun p => check_prerequisite env component_id p component_state == some false)).length

/-- A store with no component state files at all. -/
def storeEmpty : String → Option JVal := fun _ => none

/-- A file-existence probe under which no prerequisite file exists. -/
def fsFalse : String → Bool := fun _ => false

/-- An environment with no configuration files and no components. -/
def envA : Env :=
  { definitionFile := none
    rulesFile := none
    store := storeEmpty
    fileExists := fsFalse
    timestamp := "2024-01-01T00:00:00Z" }

/-- A transitions map holding a single rule with no prerequisite list. -/
def tfsB : List (String × JVal) := [("draft_to_done", JVal.obj [])]

/-- A rules table holding only the `draft_to_done` transition. -/
def rulesB : JVal := .obj [("transitions", .obj tfsB)]

/-- A store in which component `card` has a state file whose payload is the
empty JSON object. -/
def storeB : String → Option JVal :=
  fun j => if j = "card" then some (JVal.obj []) else none

/-- An environment whose only component, `card`, has an empty-object state
file. -/
def envB : Env :=
  { definitionFile := none
    rulesFile := some rulesB
    store := storeB
    fileExists := fsFalse
    timestamp := "2024-01-01T00:00:00Z" }

/-- A `property_set` prerequisite on property `x`. -/
def prereqX : JVal :=
  .obj [("type", .str "property_set"), ("property", .str "x"),
        ("description", .str "x must be set")]

/-- A `property_set` prerequisite on property `y`. -/
def prereqY : JVal :=
  .obj [("type", .str "property_set"), ("property", .str "y"),
        ("description", .str "y must be set")]

/-- A rule body requiring both `x` and `y` to be set. -/
def rvfsC : List (String × JVal) :=
  [("prerequisites", JVal.arr [prereqX, prereqY])]

/-- A transitions map whose `draft_to_done` rule has two prerequisites. -/
def tfsC : List (String × JVal) := [("draft_to_done", JVal.obj rvfsC)]

/-- The rules-table fields for the two-prerequisite table. -/
def rfsC : List (String × JVal) := [("transitions", JVal.obj tfsC)]

/-- A component payload that satisfies neither of the two prerequisites. -/
def payloadC : JVal := .obj [("component_id", .str "card")]

/-- A store in which component `card` carries `payloadC`. -/
def storeC : String → Option JVal :=
  fun j => if j = "card" then some payloadC else none

/-- An environment whose component `card` carries `payloadC`. -/
def envC : Env :=
  { definitionFile := none
    rulesFile := some (.obj rfsC)
    store := storeC
    fileExists := fsFalse
    timestamp := "2024-01-01T00:00:00Z" }

/-- An environment identical to `envC` except for the definition file and
the clock. -/
def envC2 : Env :=
  { definitionFile := some (.obj [("states", .arr [])])
    rulesFile := some (.obj rfsC)
    store := storeC
    fileExists := fsFalse
    timestamp := "2030-12-31T23:59:59Z" }

/-- The fields of a minimal healthy component payload in state `draft`. -/
def fsW : List (String × JVal) := [("state", JVal.str "draft")]

/-- A store in which component `btn` is a healthy draft component. -/
def storeW : String → Option JVal :=
  fun j => if j = "btn" then some (JVal.obj fsW) else none

/-- An environment whose component `btn` is a healthy draft component and
whose rules table allows `draft_to_done` with no prerequisites. -/
def envW : Env :=
  { definitionFile := none
    rulesFile := some rulesB
    store := storeW
    fileExists := fsFalse
    timestamp := "2024-01-01T00:00:00Z" }

/-- The fields of a truthy component payload with no `state` field. -/
def fsH : List (String × JVal) := [("title", JVal.str "widget")]

/-- A store in which component `widget` has a payload without a `state`
field. -/
def storeH : String → Option JVal :=
  fun j => if j = "widget" then some (JVal.obj fsH) else none

/-- The transitions map used with the stateless `widget` component: it
defines only `implemented_to_validated`, so `draft_to_done` is absent. -/
def tfsH : List (String × JVal) := [("implemented_to_validated", JVal.obj [])]

/-- The rules-table fields for the `widget` environment. -/
def rfsH : List (String × JVal) := [("transitions", JVal.obj tfsH)]

/-- An environment whose component `widget` has no `state` field. -/
def envH : Env :=
  { definitionFile := none
    rulesFile := some (.obj rfsH)
    store := storeH
    fileExists := fsFalse
    timestamp := "2024-01-01T00:00:00Z" }

/-- A store in which component `emptyw` has an empty-object state file. -/
def storeI : String → Option JVal :=
  fun j => if j = "emptyw" then some (JVal.obj []) else none

/-- An environment whose component `emptyw` has an empty-object state file
while the rules table would allow `draft_to_done` unconditionally. -/
def envI : Env :=
  { definitionFile := none
    rulesFile := some rulesB
    store := storeI
    fileExists := fsFalse
    timestamp := "2024-01-01T00:00:00Z" }

/-- A `property_set` prerequisite whose dotted path runs through a
non-object value. -/
def prereqBad : JVal :=
  .obj [("type", .str "property_set"), ("property", .str "a.b"),
        ("description", .str "nested property must be set")]

/-- A payload in which traversing `a.b` reaches the number 5 with one
segment left. -/
def payloadBad : JVal := .obj [("a", JVal.num 5)]

/-- A payload in which `a.b` resolves to a non-null value through objects
only. -/
def payloadGood : JVal := .obj [("a", JVal.obj [("b", JVal.num 1)])]

/-- Does the `state_history` field hold a value `.append` accepts?  True
when the field is absent (the code defaults it to a fresh list) or holds
a list. -/
def historyFieldIsList (fs : List (String × JVal)) : Bool :=
  match lookupField fs "state_history" with
  | none => true
  | some (.arr _) => true
  | some _ => false

theorem lookupField_map_replace (fs : List (String × JVal)) (k : String) (v : JVal)
    (h : hasField fs k = true) :
    lookupField (fs.map (fun p => if p.1 = k then (k, v) else p)) k = some v := by
  induction fs with
  | nil => simp [hasField, lookupField] at h
  | cons p rest ih =>
    obtain ⟨a, b⟩ := p
    rw [List.map_cons]
    by_cases hak : a = k
    · subst hak
      rw [if_pos (rfl : ((a, b) : String × JVal).1 = a)]
      simp [lookupField]
    · rw [if_neg (show ¬((a, b) : String × JVal).1 = k from hak)]
      have hr : hasField rest k = true := by
        simpa [hasField, lookupField, hak] using h
      simp [lookupField, hak, ih hr]

theorem lookupField_append_absent (fs : List (String × JVal)) (k : String) (v : JVal)
    (h : hasField fs k = false) :
    lookupField (fs ++ [(k, v)]) k = some v := by
  induction fs with
  | nil => simp [lookupField]
  | cons p rest ih =>
    obtain ⟨a, b⟩ := p
    by_cases hak : a = k
    · subst hak; simp [hasField, lookupField] at h
    · have hr : hasField rest k = false := by
        simpa [hasField, lookupField, hak] using h
      simp [lookupField, hak, ih hr]

theorem lookupField_objSet_self (fs : List (String × JVal)) (k : String) (v : JVal) :
    lookupField (objSet fs k v) k = some v := by
  unfold objSet
  cases hf : hasField fs k with
  | true => simp [hf, lookupField_map_replace fs k v hf]
  | false => simp [hf, lookupField_append_absent fs k v hf]

theorem lookupField_map_replace_ne (fs : List (String × JVal)) (k : String) (v : JVal)
    (k' : String) (h : k' ≠ k) :
    lookupField (fs.map (fun p => if p.1 = k then (k, v) else p)) k' =
      lookupField fs k' := by
  induction fs with
  | nil => rfl
  | cons p rest ih =>
    obtain ⟨a, b⟩ := p
    rw [List.map_cons]
    by_cases hak : a = k
    · subst hak
      rw [if_pos (rfl : ((a, b) : String × JVal).1 = a)]
      simp [lookupField, Ne.symm h, ih]
    · rw [if_neg (show ¬((a, b) : String × JVal).1 = k from hak)]
      simp [lookupField, ih]

theorem lookupField_append_ne (fs : List (String × JVal)) (k : String) (v : JVal)
    (k' : String) (h : k' ≠ k) :
    lookupField (fs ++ [(k, v)]) k' = lookupField fs k' := by
  induction fs with
  | nil => simp [lookupField, Ne.symm h]
  | cons p rest ih =>
    obtain ⟨a, b⟩ := p
    simp [lookupField, ih]

theorem lookupField_objSet_ne (fs : List (String × JVal)) (k : String) (v : JVal)
    (k' : String) (h : k' ≠ k) :
    lookupField (objSet fs k v) k' = lookupField fs k' := by
  unfold objSet
  cases hf : hasField fs k with
  | true => simp [hf, lookupField_map_replace_ne fs k v k' h]
  | false => simp [hf, lookupField_append_ne fs k v k' h]

theorem strAppendAssoc (a b c : String) : (a ++ b) ++ c = a ++ (b ++ c) := by
  apply String.ext
  simp

theorem draftKey (ns : String) :
    ("draft" : String) ++ ("_to_" ++ ns) = "draft_to_" ++ ns := by
  have h : ("draft" : String) ++ "_to_" = "draft_to_" := by decide
  rw [← strAppendAssoc, h]

theorem propWalk_eq_spec (segs : List String) : ∀ v : JVal,
    pathObjsOnly segs v = true → propWalk segs v = some (specPropertySet segs v) := by
  induction segs with
  | nil => intro v _; simp [propWalk, specPropertySet]
  | cons key rest ih =>
    intro v hv
    cases v with
    | obj fs =>
      cases hk : lookupField fs key with
      | none =>
        simp [propWalk, pythonIn, pythonInGen, hasField, hk, specPropertySet]
      | some v2 =>
        have hrest : pathObjsOnly rest v2 = true := by
          simpa [pathObjsOnly, hk] using hv
        simp [propWalk, pythonIn, pythonInGen, hasField, hk, pyIndexVal,
              specPropertySet, ih v2 hrest]
    | null => simp [pathObjsOnly] at hv
    | bool b => simp [pathObjsOnly] at hv
    | num n => simp [pathObjsOnly] at hv
    | str s => simp [pathObjsOnly] at hv
    | arr xs => simp [pathObjsOnly] at hv

theorem collectPrereqErrors_eq_spec (env : Env) (cid : String) (payload : JVal) :
    ∀ ps : List JVal,
    (∀ p ∈ ps, check_prerequisite env cid p payload ≠ none) →
    (∀ p ∈ ps, check_prerequisite env cid p payload = some false → descrOf p ≠ none) →
    collectPrereqErrors env cid payload ps =
      some (prereqErrorsSpec env cid payload ps) := by
  intro ps
  induction ps with
  | nil => intro _ _; rfl
  | cons p rest ih =>
    intro h6 h7
    have h6r : ∀ q ∈ rest, check_prerequisite env cid q payload ≠ none :=
      fun q hq => h6 q (List.mem_cons_of_mem _ hq)
    have h7r : ∀ q ∈ rest,
        check_prerequisite env cid q payload = some false → descrOf q ≠ none :=
      fun q hq => h7 q (List.mem_cons_of_mem _ hq)
    cases hc : check_prerequisite env cid p payload with
    | none => exact absurd hc (h6 p (List.mem_cons_self _ _))
    | some b =>
      cases b with
      | true =>
        simp [collectPrereqErrors, hc, prereqErrorsSpec, List.filterMap_cons,
              ih h6r h7r]
      | false =>
        have hd : descrOf p ≠ none := h7 p (List.mem_cons_self _ _) hc
        cases hdd : descrOf p with
        | none => exact absurd hdd hd
        | some d =>
          cases p with
          | obj pfs =>
            have hl : lookupField pfs "description" = some d := by
              simpa [descrOf] using hdd
            simp [collectPrereqErrors, hc, hl, prereqErrorsSpec,
                  List.filterMap_cons, descrOf, ih h6r h7r]
          | null => simp [descrOf] at hdd
          | bool b2 => simp [descrOf] at hdd
          | num n => simp [descrOf] at hdd
          | str s => simp [descrOf] at hdd
          | arr xs => simp [descrOf] at hdd

theorem apply_state_update_spec (env : Env) (cid : String) (fs : List (String × JVal))
    (ns : String) (res : UpdateResult) (out : Option JVal)
    (h : apply_state_update env cid (.obj fs) ns = some (res, out)) :
    res.success = true ∧ ∃ newP, out = some newP ∧
      historyOf newP = historyOf (.obj fs) ++
        [JVal.obj [("from", stateOf (.obj fs)), ("to", .str ns),
                   ("timestamp", .str env.timestamp)]] := by
  have hne : ("state_history" : String) ≠ "state" := by decide
  simp only [apply_state_update] at h
  rw [lookupField_objSet_ne fs "state" (.str ns) "state_history" hne] at h
  cases hh : lookupField fs "state_history" with
  | none =>
    rw [hh] at h
    simp only [Option.getD_none, Option.some.injEq, Prod.mk.injEq] at h
    obtain ⟨hres, hout⟩ := h
    subst hres; subst hout
    refine ⟨rfl, _, rfl, ?_⟩
    simp [historyOf, lookupField_objSet_self, stateOf, hh]
  | some hv =>
    rw [hh] at h
    cases hv with
    | arr hs =>
      simp only [Option.getD_some, Option.some.injEq, Prod.mk.injEq] at h
      obtain ⟨hres, hout⟩ := h
      subst hres; subst hout
      refine ⟨rfl, _, rfl, ?_⟩
      simp [historyOf, lookupField_objSet_self, stateOf, hh]
    | null => simp at h
    | bool b => simp at h
    | num n => simp at h
    | str s => simp at h
    | obj ofs => simp at h

theorem apply_state_update_total (env : Env) (cid : String) (fs : List (String × JVal))
    (ns : String) (h : historyFieldIsList fs = true) :
    ∃ res out, apply_state_update env cid (.obj fs) ns = some (res, out) := by
  have hne : ("state_history" : String) ≠ "state" := by decide
  simp only [apply_state_update]
  rw [lookupField_objSet_ne fs "state" (.str ns) "state_history" hne]
  cases hh : lookupField fs "state_history" with
  | none => exact ⟨_, _, rfl⟩
  | some hv =>
    cases hv with
    | arr hs => exact ⟨_, _, rfl⟩
    | null => simp [historyFieldIsList, hh] at h
    | bool b => simp [historyFieldIsList, hh] at h
    | num n => simp [historyFieldIsList, hh] at h
    | str s => simp [historyFieldIsList, hh] at h
    | obj ofs => simp [historyFieldIsList, hh] at h

/-- C1: when the key `<from>_to_<to>` is absent from the transitions map of
the rules table, `validate_transition` returns `(False, errors)` with
exactly one error naming the missing transition.  The component store `s`
and the file-existence probe `fe` are universally quantified, so the result
is the same whatever the state files contain: no prerequisite is evaluated
and the component state file is never read. -/
theorem missing_transition_single_error
    (rfs tfs : List (String × JVal)) (component_id from_state to_state : String)
    (d rf : Option JVal) (s : String → Option JVal) (fe : String → Bool)
    (ts : String)
    (h1 : lookupField rfs "transitions" = some (.obj tfs))
    (h2 : lookupField tfs (from_state ++ "_to_" ++ to_state) = none) :
    validate_transition ⟨d, rf, s, fe, ts⟩ component_id from_state to_state
        (.obj rfs) =
      some (false, ["No transition defined from \x27" ++ from_state ++
                    "\x27 to \x27" ++ to_state ++ "\x27"]) := by
  simp [validate_transition, dictGetD, h1, pythonIn, pythonInGen, hasField, h2]

/-- Witness for C1 at a concrete rules table lacking `draft_to_implemented`. -/
theorem missing_transition_single_error_wit :
    validate_transition envA "card" "draft" "implemented"
        (.obj [("transitions", JVal.obj tfsB)]) =
      some (false, ["No transition defined from \x27draft\x27 to \x27implemented\x27"]) :=
  missing_transition_single_error [("transitions", JVal.obj tfsB)] tfsB
    "card" "draft" "implemented" none none storeEmpty fsFalse
    "2024-01-01T00:00:00Z" rfl rfl

/-- C3: for a component with no state file, `update_state` returns the
not-found failure result and writes nothing, for every target state and
force flag. -/
theorem update_absent_component_not_found
    (env : Env) (component_id new_state : String) (force : Bool)
    (h : env.store component_id = none) :
    update_state env component_id new_state force =
      some (notFoundResult component_id, none) := by
  simp [update_state, get_component_state, h]

/-- Witness for C3 at a concrete empty store. -/
theorem update_absent_component_not_found_wit :
    update_state envA "ghost" "done" false =
      some (notFoundResult "ghost", none) :=
  update_absent_component_not_found envA "ghost" "done" false rfl

theorem check_prerequisite_env_cong (d1 d2 rf1 rf2 : Option JVal)
    (s : String → Option JVal) (fe : String → Bool) (ts1 ts2 : String)
    (cid : String) (p c : JVal) :
    check_prerequisite ⟨d1, rf1, s, fe, ts1⟩ cid p c =
      check_prerequisite ⟨d2, rf2, s, fe, ts2⟩ cid p c := by
  cases p <;> simp [check_prerequisite]

theorem collectPrereqErrors_env_cong (d1 d2 rf1 rf2 : Option JVal)
    (s : String → Option JVal) (fe : String → Bool) (ts1 ts2 : String)
    (cid : String) (c : JVal) (ps : List JVal) :
    collectPrereqErrors ⟨d1, rf1, s, fe, ts1⟩ cid c ps =
      collectPrereqErrors ⟨d2, rf2, s, fe, ts2⟩ cid c ps := by
  induction ps with
  | nil => rfl
  | cons p rest ih =>
    simp only [collectPrereqErrors,
      check_prerequisite_env_cong d1 d2 rf1 rf2 s fe ts1 ts2 cid p c, ih]

theorem validate_transition_env_cong (d1 d2 rf1 rf2 : Option JVal)
    (s : String → Option JVal) (fe : String → Bool) (ts1 ts2 : String)
    (cid f t : String) (rules : JVal) :
    validate_transition ⟨d1, rf1, s, fe, ts1⟩ cid f t rules =
      validate_transition ⟨d2, rf2, s, fe, ts2⟩ cid f t rules := by
  simp only [validate_transition, get_component_state,
    collectPrereqErrors_env_cong d1 d2 rf1 rf2 s fe ts1 ts2 cid]

theorem apply_state_update_env_cong (d1 d2 rf1 rf2 : Option JVal)
    (s : String → Option JVal) (fe1 fe2 : String → Bool) (ts : String)
    (cid : String) (c : JVal) (ns : String) :
    apply_state_update ⟨d1, rf1, s, fe1, ts⟩ cid c ns =
      apply_state_update ⟨d2, rf2, s, fe2, ts⟩ cid c ns := by
  cases c <;> simp [apply_state_update]

/-- C10: the result of `update_state` does not depend on the contents of
`definition.json`: two environments that differ only in the state-machine
definition file produce identical results, because the code never calls
`load_state_machine` and never checks membership of a state in the
definition. -/
theorem update_independent_of_definition
    (d1 d2 rf : Option JVal) (s : String → Option JVal) (fe : String → Bool)
    (ts : String) (component_id new_state : String) (force : Bool) :
    update_state ⟨d1, rf, s, fe, ts⟩ component_id new_state force =
      update_state ⟨d2, rf, s, fe, ts⟩ component_id new_state force := by
  simp only [update_state, get_component_state, load_transition_rules,
    validate_transition_env_cong d1 d2 rf rf s fe ts ts,
    apply_state_update_env_cong d1 d2 rf rf s fe fe ts]

/-- C8: `validate_transition` is deterministic in its inputs and the
file-system state: two environments with the same component store and the
same file-existence probe (the clock and the configuration files may
differ, and in particular nothing was mutated between two repeated calls)
give identical results for the same arguments. -/
theorem validate_deterministic (e1 e2 : Env)
    (component_id from_state to_state : String) (rules : JVal)
    (hs : e1.store = e2.store) (hf : e1.fileExists = e2.fileExists) :
    validate_transition e1 component_id from_state to_state rules =
      validate_transition e2 component_id from_state to_state rules := by
  obtain ⟨d1, rf1, s1, fe1, ts1⟩ := e1
  obtain ⟨d2, rf2, s2, fe2, ts2⟩ := e2
  have hs2 : s1 = s2 := hs
  have hf2 : fe1 = fe2 := hf
  subst hs2; subst hf2
  exact validate_transition_env_cong d1 d2 rf1 rf2 s1 fe1 ts1 ts2
    component_id from_state to_state rules

/-- Witness for C8: the same validation run in two environments that share
the store and file probe but differ in clock and definition file. -/
theorem validate_deterministic_wit :
    validate_transition envC "card" "draft" "done" rulesB =
      validate_transition envC2 "card" "draft" "done" rulesB :=
  validate_deterministic envC envC2 "card" "draft" "done" rulesB rfl rfl

/-- C7: a prerequisite descriptor whose `type` field is none of
`file_exists`, `property_set` and `linked_resources` (including a
descriptor with no `type` field at all) evaluates to not-satisfied:
`_check_prerequisite` returns `False`, never auto-passing. -/
theorem unknown_prereq_type_not_satisfied
    (env : Env) (component_id : String) (pfs : List (String × JVal))
    (payload : JVal)
    (h : isKnownTypeTag (lookupField pfs "type") = false) :
    check_prerequisite env component_id (.obj pfs) payload = some false := by
  cases ht : lookupField pfs "type" with
  | none => simp [check_prerequisite, ht]
  | some t =>
    cases t with
    | str s =>
      rw [ht] at h
      by_cases h1 : s = "file_exists"
      · subst h1; simp [isKnownTypeTag] at h
      · by_cases h2 : s = "property_set"
        · subst h2; simp [isKnownTypeTag] at h
        · by_cases h3 : s = "linked_resources"
          · subst h3; simp [isKnownTypeTag] at h
          · simp [check_prerequisite, ht, h1, h2, h3]
    | null => simp [check_prerequisite, ht]
    | bool b => simp [check_prerequisite, ht]
    | num n => simp [check_prerequisite, ht]
    | arr xs => simp [check_prerequisite, ht]
    | obj ofs => simp [check_prerequisite, ht]

/-- Witness for C7 at a concrete descriptor of unknown kind `mystery`. -/
theorem unknown_prereq_type_not_satisfied_wit :
    isKnownTypeTag (lookupField [("type", JVal.str "mystery")] "type") = false ∧
    check_prerequisite envA "card" (.obj [("type", JVal.str "mystery")])
        (.obj []) = some false :=
  ⟨rfl, unknown_prereq_type_not_satisfied envA "card"
    [("type", JVal.str "mystery")] (.obj []) rfl⟩

/-- C6 counterexample: the claim promises a boolean for every payload, but
on the payload `\x7b"a": 5\x7d` with dotted path `a.b` the walk reaches the
number 5 with a segment left and the code raises a `TypeError`
(membership test on an integer) instead of returning `False` for the
absent segment. -/
theorem property_set_raises_on_non_object :
    check_prerequisite envA "card" prereqBad payloadBad = none := rfl

/-- C6 as amended: for a `property_set` prerequisite whose dotted path
traverses only JSON objects, the evaluator returns exactly the boolean the
spec words describe: false when a segment is absent, otherwise true iff
the terminal value is non-null. -/
theorem property_set_spec_on_object_paths
    (env : Env) (component_id : String) (pfs : List (String × JVal))
    (payload : JVal) (prop : String)
    (h1 : lookupField pfs "type" = some (.str "property_set"))
    (h2 : lookupField pfs "property" = some (.str prop))
    (h3 : pathObjsOnly (pySplitChar prop '.') payload = true) :
    check_prerequisite env component_id (.obj pfs) payload =
      some (specPropertySet (pySplitChar prop '.') payload) := by
  simp [check_prerequisite, h1, h2,
        propWalk_eq_spec (pySplitChar prop '.') payload h3]

/-- Witness for C6 on a payload where `a.b` resolves through objects to a
non-null value. -/
theorem property_set_spec_on_object_paths_wit :
    check_prerequisite envA "card"
        (.obj [("type", JVal.str "property_set"), ("property", JVal.str "a.b"),
               ("description", JVal.str "nested property must be set")])
        payloadGood = some true :=
  property_set_spec_on_object_paths envA "card"
    [("type", JVal.str "property_set"), ("property", JVal.str "a.b"),
     ("description", JVal.str "nested property must be set")]
    payloadGood "a.b" rfl rfl rfl

theorem prereqErrorsSpec_length (env : Env) (cid : String) (payload : JVal) :
    ∀ ps : List JVal,
    (∀ p ∈ ps, check_prerequisite env cid p payload = some false →
        descrOf p ≠ none) →
    (prereqErrorsSpec env cid payload ps).length =
      unmetCount env cid payload ps := by
  intro ps
  induction ps with
  | nil => intro _; rfl
  | cons p rest ih =>
    intro h7
    have h7r : ∀ q ∈ rest,
        check_prerequisite env cid q payload = some false → descrOf q ≠ none :=
      fun q hq => h7 q (List.mem_cons_of_mem _ hq)
    have ihr := ih h7r
    simp only [prereqErrorsSpec, unmetCount] at ihr
    cases hc : check_prerequisite env cid p payload with
    | none =>
      simp [prereqErrorsSpec, List.filterMap_cons, hc, unmetCount,
            List.filter_cons, ihr]
    | some b =>
      cases b with
      | true =>
        simp [prereqErrorsSpec, List.filterMap_cons, hc, unmetCount,
              List.filter_cons, ihr]
      | false =>
        cases hdd : descrOf p with
        | none => exact absurd hdd (h7 p (List.mem_cons_self _ _) hc)
        | some d =>
          simp [prereqErrorsSpec, List.filterMap_cons, hc, hdd, unmetCount,
                List.filter_cons, ihr]

/-- C2 counterexample: the claim quantifies over every existing component,
but for a component whose state file holds the empty JSON object the
validator reports a single not-found error instead of evaluating the (here
empty) prerequisite list and succeeding: the code treats a falsy payload
as a missing component. -/
theorem empty_payload_validate_not_found :
    (get_component_state envB "card").isSome = true ∧
    validate_transition envB "card" "draft" "done" rulesB ≠
      some (true, ([] : List String)) := by
  refine ⟨rfl, ?_⟩
  intro hcontra
  rw [show validate_transition envB "card" "draft" "done" rulesB =
      some (false, ["Component \x27card\x27 not found"]) from rfl] at hcontra
  simp at hcontra

/-- C2 as amended: for a transition whose key is present in the rules
table and a component whose state payload is truthy, provided every
prerequisite evaluation completes without raising and every failing
prerequisite carries a description, `validate_transition` evaluates the
whole prerequisite list, returns one error entry per unmet prerequisite in
order, and succeeds exactly when that list is empty. -/
theorem prereq_errors_exhaustive
    (env : Env) (component_id f t : String)
    (rfs tfs rvfs : List (String × JVal)) (ps : List JVal) (payload : JVal)
    (h1 : lookupField rfs "transitions" = some (.obj tfs))
    (h2 : lookupField tfs (f ++ "_to_" ++ t) = some (.obj rvfs))
    (h3 : (lookupField rvfs "prerequisites").getD (.arr []) = .arr ps)
    (h4 : env.store component_id = some payload)
    (h5 : truthy payload = true)
    (h6 : ∀ p ∈ ps, check_prerequisite env component_id p payload ≠ none)
    (h7 : ∀ p ∈ ps, check_prerequisite env component_id p payload = some false →
            descrOf p ≠ none) :
    validate_transition env component_id f t (.obj rfs) =
      some ((prereqErrorsSpec env component_id payload ps).isEmpty,
            prereqErrorsSpec env component_id payload ps) ∧
    (prereqErrorsSpec env component_id payload ps).length =
      unmetCount env component_id payload ps := by
  refine ⟨?_, prereqErrorsSpec_length env component_id payload ps h7⟩
  simp [validate_transition, dictGetD, h1, pythonIn, pythonInGen, hasField, h2,
        pyIndexVal, h3, get_component_state, h4, h5, pyIter,
        collectPrereqErrors_eq_spec env component_id payload ps h6 h7]

/-- Witness for C2 at a rule with two unmet prerequisites: the validator
collects exactly the two corresponding error entries and fails. -/
theorem prereq_errors_exhaustive_wit :
    (validate_transition envC "card" "draft" "done" (.obj rfsC) =
      some ((prereqErrorsSpec envC "card" payloadC [prereqX, prereqY]).isEmpty,
            prereqErrorsSpec envC "card" payloadC [prereqX, prereqY]) ∧
     (prereqErrorsSpec envC "card" payloadC [prereqX, prereqY]).length =
       unmetCount envC "card" payloadC [prereqX, prereqY]) ∧
    prereqErrorsSpec envC "card" payloadC [prereqX, prereqY] =
      ["Prerequisite not met: x must be set",
       "Prerequisite not met: y must be set"] ∧
    unmetCount envC "card" payloadC [prereqX, prereqY] = 2 :=
  ⟨prereq_errors_exhaustive envC "card" "draft" "done" rfsC tfsC rvfsC
      [prereqX, prereqY] payloadC rfl rfl rfl rfl rfl
      (by decide)
      (by
        intro p hp hcf
        simp only [List.mem_cons, List.mem_singleton, List.not_mem_nil,
          or_false] at hp
        rcases hp with rfl | rfl <;> simp [descrOf, prereqX, prereqY, lookupField]),
   rfl, rfl⟩

theorem update_force_env_cong (d1 d2 rf1 rf2 : Option JVal)
    (s : String → Option JVal) (fe1 fe2 : String → Bool) (ts : String)
    (cid ns : String) :
    update_state ⟨d1, rf1, s, fe1, ts⟩ cid ns true =
      update_state ⟨d2, rf2, s, fe2, ts⟩ cid ns true := by
  cases hsc : s cid with
  | none => simp [update_state, get_component_state, hsc]
  | some c =>
    cases c <;>
      simp [update_state, get_component_state, hsc, dictGetD,
        apply_state_update_env_cong d1 d2 rf1 rf2 s fe1 fe2 ts]

/-- C4 counterexample: the claim promises success for every existing
component under `force=True`, but a component whose state file holds the
empty JSON object exists in the store and still fails: the falsy payload
is reported as not found before the force flag is consulted. -/
theorem force_update_empty_payload_fails :
    (get_component_state envB "card").isSome = true ∧
    resultSuccess (update_state envB "card" "done" true) = some false := by
  exact ⟨rfl, rfl⟩

/-- C4 as amended: for a component whose state file holds a non-empty JSON
object whose `state_history` field, if present, is a list, `update_state`
with `force=True` succeeds and appends exactly one history record, and the
outcome is independent of the rules file, the definition file and the
prerequisite file probe: validation is bypassed entirely. -/
theorem force_update_succeeds_appends
    (d rf d2 rf2 : Option JVal) (s : String → Option JVal)
    (fe fe2 : String → Bool) (ts : String)
    (component_id new_state : String) (fs : List (String × JVal))
    (h1 : s component_id = some (.obj fs))
    (h2 : fs ≠ [])
    (h3 : historyFieldIsList fs = true) :
    (∃ res newP,
        update_state ⟨d, rf, s, fe, ts⟩ component_id new_state true =
          some (res, some newP) ∧
        res.success = true ∧
        historyOf newP = historyOf (.obj fs) ++
          [JVal.obj [("from", stateOf (.obj fs)), ("to", .str new_state),
                     ("timestamp", .str ts)]]) ∧
    update_state ⟨d2, rf2, s, fe2, ts⟩ component_id new_state true =
      update_state ⟨d, rf, s, fe, ts⟩ component_id new_state true := by
  constructor
  · obtain ⟨res, out, happ⟩ :=
      apply_state_update_total ⟨d, rf, s, fe, ts⟩ component_id fs new_state h3
    obtain ⟨hsucc, newP, hout, hhist⟩ :=
      apply_state_update_spec ⟨d, rf, s, fe, ts⟩ component_id fs new_state
        res out happ
    refine ⟨res, newP, ?_, hsucc, hhist⟩
    rw [hout] at happ
    have hu : update_state ⟨d, rf, s, fe, ts⟩ component_id new_state true =
        apply_state_update ⟨d, rf, s, fe, ts⟩ component_id (.obj fs) new_state := by
      cases fs with
      | nil => exact absurd rfl h2
      | cons q qs =>
        simp [update_state, get_component_state, h1, truthy, dictGetD]
    rw [hu]; exact happ
  · exact update_force_env_cong d2 d rf2 rf s fe2 fe ts component_id new_state

/-- Witness for C4 on a healthy draft component: the forced update to
`validated` succeeds with one appended record even though the rules table
has no `draft_to_validated` transition, and the result agrees with that of
an environment with different configuration files. -/
theorem force_update_succeeds_appends_wit :
    (∃ res newP,
        update_state envW "btn" "validated" true = some (res, some newP) ∧
        res.success = true ∧
        historyOf newP = historyOf (.obj fsW) ++
          [JVal.obj [("from", stateOf (.obj fsW)), ("to", .str "validated"),
                     ("timestamp", .str "2024-01-01T00:00:00Z")]]) ∧
    update_state ⟨some (JVal.obj []), none, storeW, fsFalse,
        "2024-01-01T00:00:00Z"⟩ "btn" "validated" true =
      update_state envW "btn" "validated" true :=
  force_update_succeeds_appends none (some rulesB) (some (JVal.obj [])) none
    storeW fsFalse fsFalse "2024-01-01T00:00:00Z" "btn" "validated" fsW
    rfl (by simp [fsW]) rfl

/-- C5: every `update_state` call that returns success has written exactly
the old payload with one history record appended: prior entries are
preserved as a prefix, the new record `from` field is the component state
immediately before the update, and its `to` field is the new state; a call
that returns failure writes nothing, so the history length never
decreases across operations. -/
theorem update_success_appends_exactly_one
    (env : Env) (component_id new_state : String) (force : Bool)
    (res : UpdateResult) (out : Option JVal)
    (h : update_state env component_id new_state force = some (res, out)) :
    (res.success = true → ∃ p newP,
        get_component_state env component_id = some p ∧
        out = some newP ∧
        historyOf newP = historyOf p ++
          [JVal.obj [("from", stateOf p), ("to", .str new_state),
                     ("timestamp", .str env.timestamp)]]) ∧
    (res.success = false → out = none) := by
  unfold update_state at h
  cases hsc : get_component_state env component_id with
  | none =>
    simp only [hsc, Option.some.injEq, Prod.mk.injEq] at h
    obtain ⟨hres, hout⟩ := h
    subst hres; subst hout
    exact ⟨fun hs => by simp [notFoundResult] at hs, fun _ => rfl⟩
  | some c =>
    simp only [hsc] at h
    by_cases htr : truthy c = true
    · rw [if_pos htr] at h
      cases c with
      | obj fs =>
        simp only [dictGetD] at h
        by_cases hforce : force = true
        · rw [hforce, if_pos rfl] at h
          obtain ⟨hsucc, newP, hout, hhist⟩ :=
            apply_state_update_spec env component_id fs new_state res out h
          refine ⟨fun _ => ⟨.obj fs, newP, rfl, hout, hhist⟩, fun hf => ?_⟩
          rw [hsucc] at hf; exact absurd hf (by simp)
        · rw [if_neg hforce] at h
          cases hv : validate_transition env component_id
              (pyStr ((lookupField fs "state").getD (.str "draft"))) new_state
              (load_transition_rules env) with
          | none => simp only [hv] at h; exact absurd h (by simp)
          | some pr =>
            obtain ⟨is_valid, errors⟩ := pr
            simp only [hv] at h
            cases is_valid with
            | true =>
              rw [if_pos rfl] at h
              obtain ⟨hsucc, newP, hout, hhist⟩ :=
                apply_state_update_spec env component_id fs new_state res out h
              refine ⟨fun _ => ⟨.obj fs, newP, rfl, hout, hhist⟩, fun hf => ?_⟩
              rw [hsucc] at hf; exact absurd hf (by simp)
            | false =>
              rw [if_neg Bool.false_ne_true] at h
              simp only [Option.some.injEq, Prod.mk.injEq] at h
              obtain ⟨hres, hout⟩ := h
              subst hres; subst hout
              exact ⟨fun hs => by simp at hs, fun _ => rfl⟩
      | null => simp [dictGetD] at h
      | bool b => simp [dictGetD] at h
      | num n => simp [dictGetD] at h
      | str s => simp [dictGetD] at h
      | arr xs => simp [dictGetD] at h
    · rw [if_neg htr] at h
      simp only [Option.some.injEq, Prod.mk.injEq] at h
      obtain ⟨hres, hout⟩ := h
      subst hres; subst hout
      exact ⟨fun hs => by simp [notFoundResult] at hs, fun _ => rfl⟩

/-- Witness for C5 on a successful unforced update along an allowed
transition with no prerequisites: the written payload carries the single
appended record. -/
theorem update_success_appends_exactly_one_wit :
    (({ success := true, error := none, validation_errors := none,
        component_id := "btn", from_state := some (JVal.str "draft"),
        to_state := some (JVal.str "done"),
        message := some "Successfully updated btn from draft to done" } :
          UpdateResult).success = true →
      ∃ p newP, get_component_state envW "btn" = some p ∧
        (some (JVal.obj [("state", JVal.str "done"),
            ("state_history", JVal.arr [JVal.obj
              [("from", JVal.str "draft"), ("to", JVal.str "done"),
               ("timestamp", JVal.str "2024-01-01T00:00:00Z")]])]) :
          Option JVal) = some newP ∧
        historyOf newP = historyOf p ++
          [JVal.obj [("from", stateOf p), ("to", JVal.str "done"),
                     ("timestamp", JVal.str envW.timestamp)]]) ∧
    (({ success := true, error := none, validation_errors := none,
        component_id := "btn", from_state := some (JVal.str "draft"),
        to_state := some (JVal.str "done"),
        message := some "Successfully updated btn from draft to done" } :
          UpdateResult).success = false →
      (some (JVal.obj [("state", JVal.str "done"),
          ("state_history", JVal.arr [JVal.obj
            [("from", JVal.str "draft"), ("to", JVal.str "done"),
             ("timestamp", JVal.str "2024-01-01T00:00:00Z")]])]) :
        Option JVal) = none) :=
  update_success_appends_exactly_one envW "btn" "done" false
    { success := true, error := none, validation_errors := none,
      component_id := "btn", from_state := some (JVal.str "draft"),
      to_state := some (JVal.str "done"),
      message := some "Successfully updated btn from draft to done" }
    (some (JVal.obj [("state", JVal.str "done"),
      ("state_history", JVal.arr [JVal.obj
        [("from", JVal.str "draft"), ("to", JVal.str "done"),
         ("timestamp", JVal.str "2024-01-01T00:00:00Z")]])]))
    (by rfl)

/-- C9 counterexample: a state file that exists and has no `state` field
but holds the empty object is not treated as a draft component at all:
although the rules table allows `draft_to_done` unconditionally, the
update fails with not-found instead of computing the `draft_to_done`
transition key. -/
theorem stateless_empty_payload_not_draft :
    get_component_state envI "emptyw" = some (JVal.obj []) ∧
    hasField tfsB "draft_to_done" = true ∧
    resultSuccess (update_state envI "emptyw" "done" false) = some false :=
  ⟨rfl, rfl, rfl⟩

/-- C9 as amended: for a component whose state file holds a non-empty
object without a `state` field, the current state defaults to `draft`:
when the rules table lacks the key `draft_to_` ++ new_state the unforced
update fails with the validation error naming `draft`, carrying
`from_state = "draft"`; and any update on this component that writes a
payload appends a history record whose `from` field is `"draft"`. -/
theorem missing_state_field_defaults_draft
    (env : Env) (component_id new_state : String)
    (fs rfs tfs : List (String × JVal)) (force : Bool)
    (res : UpdateResult) (newP : JVal)
    (h1 : env.store component_id = some (.obj fs))
    (h2 : fs ≠ [])
    (h3 : lookupField fs "state" = none)
    (h4 : env.rulesFile = some (.obj rfs))
    (h5 : lookupField rfs "transitions" = some (.obj tfs))
    (h6 : lookupField tfs ("draft_to_" ++ new_state) = none) :
    update_state env component_id new_state false =
      some ({ success := false, error := some "Transition validation failed",
              validation_errors :=
                some ["No transition defined from \x27" ++ "draft" ++
                      "\x27 to \x27" ++ new_state ++ "\x27"],
              component_id := component_id,
              from_state := some (.str "draft"),
              to_state := some (.str new_state), message := none }, none) ∧
    (update_state env component_id new_state force = some (res, some newP) →
      historyOf newP = historyOf (.obj fs) ++
        [JVal.obj [("from", .str "draft"), ("to", .str new_state),
                   ("timestamp", .str env.timestamp)]]) := by
  have htr : truthy (JVal.obj fs) = true := by
    cases fs with
    | nil => exact absurd rfl h2
    | cons a l => simp [truthy]
  have hval : validate_transition env component_id "draft" new_state
      (.obj rfs) =
      some (false, ["No transition defined from \x27" ++ "draft" ++
                    "\x27 to \x27" ++ new_state ++ "\x27"]) := by
    simp [validate_transition, dictGetD, h5, pythonIn, pythonInGen, hasField, h6]
  have ha : update_state env component_id new_state false =
      some ({ success := false, error := some "Transition validation failed",
              validation_errors :=
                some ["No transition defined from \x27" ++ "draft" ++
                      "\x27 to \x27" ++ new_state ++ "\x27"],
              component_id := component_id,
              from_state := some (.str "draft"),
              to_state := some (.str new_state), message := none }, none) := by
    simp [update_state, get_component_state, h1, htr, dictGetD, h3,
          load_transition_rules, h4, pyStr, hval]
  refine ⟨ha, ?_⟩
  intro hup
  cases force with
  | false =>
    rw [ha] at hup
    simp at hup
  | true =>
    have hu : update_state env component_id new_state true =
        apply_state_update env component_id (.obj fs) new_state := by
      cases fs with
      | nil => exact absurd rfl h2
      | cons q qs =>
        simp [update_state, get_component_state, h1, truthy, dictGetD]
    rw [hu] at hup
    obtain ⟨hsucc, newP2, hout, hhist⟩ :=
      apply_state_update_spec env component_id fs new_state res (some newP) hup
    have hnp : newP2 = newP := by
      simpa using hout.symm
    rw [hnp] at hhist
    have hst : stateOf (JVal.obj fs) = .str "draft" := by
      simp [stateOf, h3]
    rw [hst] at hhist
    exact hhist

/-- Witness for C9 on the stateless `widget` component: the unforced
update to `done` fails naming a missing `draft_to_done` transition, and
the forced update appends a record with `from = "draft"`. -/
theorem missing_state_field_defaults_draft_wit :
    (update_state envH "widget" "done" false =
      some ({ success := false, error := some "Transition validation failed",
              validation_errors :=
                some ["No transition defined from \x27" ++ "draft" ++
                      "\x27 to \x27" ++ "done" ++ "\x27"],
              component_id := "widget",
              from_state := some (JVal.str "draft"),
              to_state := some (JVal.str "done"), message := none }, none)) ∧
    (update_state envH "widget" "done" true =
        some ({ success := true, error := none, validation_errors := none,
                component_id := "widget",
                from_state := some (JVal.str "draft"),
                to_state := some (JVal.str "done"),
                message :=
                  some "Successfully updated widget from draft to done" },
          some (JVal.obj [("title", JVal.str "widget"),
            ("state", JVal.str "done"),
            ("state_history", JVal.arr [JVal.obj
              [("from", JVal.str "draft"), ("to", JVal.str "done"),
               ("timestamp", JVal.str "2024-01-01T00:00:00Z")]])])) →
      historyOf (JVal.obj [("title", JVal.str "widget"),
          ("state", JVal.str "done"),
          ("state_history", JVal.arr [JVal.obj
            [("from", JVal.str "draft"), ("to", JVal.str "done"),
             ("timestamp", JVal.str "2024-01-01T00:00:00Z")]])]) =
        historyOf (JVal.obj fsH) ++
          [JVal.obj [("from", JVal.str "draft"), ("to", JVal.str "done"),
                     ("timestamp", JVal.str envH.timestamp)]]) :=
  missing_state_field_defaults_draft envH "widget" "done" fsH rfsH tfsH true
    { success := true, error := none, validation_errors := none,
      component_id := "widget", from_state := some (JVal.str "draft"),
      to_state := some (JVal.str "done"),
      message := some "Successfully updated widget from draft to done" }
    (JVal.obj [("title", JVal.str "widget"), ("state", JVal.str "done"),
      ("state_history", JVal.arr [JVal.obj
        [("from", JVal.str "draft"), ("to", JVal.str "done"),
         ("timestamp", JVal.str "2024-01-01T00:00:00Z")]])])
    rfl (by simp [fsH]) rfl rfl rfl rfl
